import Mathlib

/-!
# Verification of ROOT plotting-tools range, occlusion and legend algorithms

Shallow embedding of the pure computational core of `plot.py`
(ROOT_Plotting_Tools): coordinate transforms, range padding, automatic
y-range estimation with outlier rejection, the `Occlusion` interval
structure, stacking, and legend-list construction.  Machine floats are
modelled as exact rationals (`ℚ`); Python's fallible operations (raising
`RuntimeError` / `ZeroDivisionError`) are modelled with `Except`.
-/

namespace RPlot

/-! ## Coordinate transforms (plot.py, PLOT COORDINATES section)

The pad is modelled by its four margins; the frame by its y-axis extent
`(fmin, fmax)`.  Only the linear (non-log) mode is used by the claims.
-/

/-- `axes_to_pad_x(pad, frame, x)`: `x * pad_width + pad.GetLeftMargin()` with
`pad_width = 1 - pad.GetLeftMargin() - pad.GetRightMargin()`. -/
def axes_to_pad_x (left_margin right_margin x : ℚ) : ℚ :=
  let pad_width := 1 - left_margin - right_margin
  x * pad_width + left_margin

/-- `axes_to_pad_y(pad, frame, y)`: `y * pad_height + pad.GetBottomMargin()` with
`pad_height = 1 - pad.GetTopMargin() - pad.GetBottomMargin()`. -/
def axes_to_pad_y (bottom_margin top_margin y : ℚ) : ℚ :=
  let pad_height := 1 - top_margin - bottom_margin
  y * pad_height + bottom_margin

/-- `pad_to_axes_x(pad, frame, x)`: `(x - pad.GetLeftMargin()) / pad_width`. -/
def pad_to_axes_x (left_margin right_margin x : ℚ) : ℚ :=
  let pad_width := 1 - left_margin - right_margin
  (x - left_margin) / pad_width

/-- `pad_to_axes_y(pad, frame, y)`: `(y - pad.GetBottomMargin()) / pad_height`. -/
def pad_to_axes_y (bottom_margin top_margin y : ℚ) : ℚ :=
  let pad_height := 1 - top_margin - bottom_margin
  (y - bottom_margin) / pad_height

/-- `user_to_axes_y(pad, frame, y)` in linear mode: `(y - fmin) / (fmax - fmin)`.
Python float division raises `ZeroDivisionError` when the frame extent
`fmax - fmin` is zero, which we model with `Except`. -/
def user_to_axes_y (fmin fmax y : ℚ) : Except String ℚ :=
  let user_width := fmax - fmin
  if user_width = 0 then .error "ZeroDivisionError"
  else .ok ((y - fmin) / user_width)

/-! ## Range padding (`Plotter._get_padded_range`, plot.py:554) -/

/-- `Plotter._get_padded_range(data_min, data_max, pad_bot, pad_top)`:
```
data_height = 1.0 - pad_bot - pad_top
diff = data_max - data_min
out_min = data_min - pad_bot * diff / data_height
out_max = data_max + pad_top * diff / data_height
```  -/
def get_padded_range (data_min data_max pad_bot pad_top : ℚ) : ℚ × ℚ :=
  let data_height := 1 - pad_bot - pad_top
  let diff := data_max - data_min
  (data_min - pad_bot * diff / data_height, data_max + pad_top * diff / data_height)

/-! ## Occlusion (plot.py, OCCLUSION section)

`Occlusion` keeps a list of non-overlapping ranges sorted by `x_min`
(the `points` member of the Python class is never touched by `add` and is
omitted).
-/

/-- `Occlusion.Range`: an axis-space rectangle `[x_min, x_max] → [y_min, y_max]`. -/
structure Occlusion.Range where
  x_min : ℚ
  x_max : ℚ
  y_min : ℚ
  y_max : ℚ
deriving DecidableEq, Inhabited, Repr

/-- `Occlusion.Range.split(self, other)`: splits `self` based on the addition of
`other`; per its docstring it does not split the remainder of `other` when
`other` is wider.  The final Python branch (`raise RuntimeError`) is dead code:
the four x-interval cases before it are exhaustive, so it is modelled as `[]`. -/
def Occlusion.Range.split (self other : Occlusion.Range) : List Occlusion.Range :=
  let y_min := min self.y_min other.y_min
  let y_max := max self.y_max other.y_max
  if other.y_min ≥ self.y_min ∧ other.y_max ≤ self.y_max then
    [self]
  else if other.x_min ≥ self.x_max ∨ other.x_max ≤ self.x_min then
    [self]
  else if other.x_min > self.x_min ∧ other.x_max < self.x_max then
    [⟨self.x_min, other.x_min, self.y_min, self.y_max⟩,
     ⟨other.x_min, other.x_max, y_min, y_max⟩,
     ⟨other.x_max, self.x_max, self.y_min, self.y_max⟩]
  else if other.x_min ≤ self.x_min ∧ other.x_max ≥ self.x_max then
    [⟨self.x_min, self.x_max, y_min, y_max⟩]
  else if other.x_max < self.x_max then
    [⟨self.x_min, other.x_max, y_min, y_max⟩,
     ⟨other.x_max, self.x_max, self.y_min, self.y_max⟩]
  else if other.x_min > self.x_min then
    [⟨self.x_min, other.x_min, self.y_min, self.y_max⟩,
     ⟨other.x_min, self.x_max, y_min, y_max⟩]
  else
    []

/-- The `Occlusion` structure: the coalesced list of ranges sorted by `x_min`. -/
structure Occlusion where
  ranges : List Occlusion.Range
deriving DecidableEq, Repr

/-- `Occlusion.__init__`: empty list of ranges. -/
def Occlusion.empty : Occlusion := ⟨[]⟩

/-- `bisect.bisect_left(self.ranges, x)` where `Occlusion.Range.__lt__` against a
number compares `self.x_min < x`: on a list sorted by `x_min` this is the first
index whose element is not `< x`, i.e. the length of the initial run of
elements with `x_min < x`. -/
def Occlusion.bisectLeft (ranges : List Occlusion.Range) (x : ℚ) : Nat :=
  (ranges.takeWhile (fun s => s.x_min < x)).length

/-- `Occlusion._find(r)`: returns `(i_min, i_max)`, the index window of
`self.ranges` intersecting `r`. -/
def Occlusion.find (occ : Occlusion) (r : Occlusion.Range) : Nat × Nat :=
  if occ.ranges.length = 0 then (0, 0)
  else
    let i0 := Occlusion.bisectLeft occ.ranges r.x_min
    let i_min :=
      if 0 < i0 ∧ (occ.ranges.getD (i0 - 1) default).x_max > r.x_min then i0 - 1 else i0
    let i_max := Occlusion.bisectLeft occ.ranges r.x_max
    (i_min, i_max)

/-- `Occlusion.add(x_min, x_max, y_min, y_max)`: appends, inserts, or splices in
the split of every intersecting range (`self.ranges[i_min:i_max] = new_slice`). -/
def Occlusion.add (occ : Occlusion) (x_min x_max y_min y_max : ℚ) : Occlusion :=
  let r : Occlusion.Range := ⟨x_min, x_max, y_min, y_max⟩
  let iw := occ.find r
  let i_min := iw.1
  let i_max := iw.2
  if i_min = occ.ranges.length then
    ⟨occ.ranges ++ [r]⟩
  else if i_min = i_max then
    ⟨occ.ranges.take i_min ++ r :: occ.ranges.drop i_min⟩
  else
    let new_slice := ((occ.ranges.drop i_min).take (i_max - i_min)).flatMap (fun s => s.split r)
    ⟨occ.ranges.take i_min ++ new_slice ++ occ.ranges.drop i_max⟩

/-! ## Range estimation (`_minmax_y`, `get_minmax_y`, plot.py:1512, 1568)

A series is modelled by the list of entries its accessor `get(i)` yields:
`(GetBinCenter, GetBinContent, GetBinError)` for `TH1`/`TProfile` and
`(GetPointX, GetPointY, 1)` for `TGraph`.  `TF`-class objects are filtered out
by `get_minmax_y` before `_minmax_y` runs and are not modelled; the
`math.inf` check cannot fire over `ℚ`.
-/

/-- One data entry `(x, y, e)` of a series. -/
structure Point where
  x : ℚ
  y : ℚ
  e : ℚ
deriving DecidableEq, Inhabited, Repr

/-- The x-window test of `_minmax_y`: `if x_range: if x < x_range[0] or
x > x_range[1]: continue` (a `None` window passes everything). -/
def inWindow (xr : Option (ℚ × ℚ)) (p : Point) : Bool :=
  match xr with
  | none => true
  | some (lo, hi) => !(p.x < lo || p.x > hi)

/-- One step of the first pass of `_minmax_y` (run when `ignore_outliers_y` is
truthy): running weighted mean/variance with weight `1/e`, skipping points
outside the x-window and points with `e == 0`.  State is
`(mean, std_acc, w_sum)` and the update is
`w_sum += 1/e; mean += (y - mean_old) / (e * w_sum);
 std_acc += (y - mean_old) * (y - mean) / e`. -/
def passStep (xr : Option (ℚ × ℚ)) (st : ℚ × ℚ × ℚ) (p : Point) : ℚ × ℚ × ℚ :=
  if ¬ inWindow xr p then st
  else if p.e = 0 then st
  else
    let w_sum := st.2.2 + 1 / p.e
    let mean_old := st.1
    let mean := mean_old + (p.y - mean_old) / (p.e * w_sum)
    let std_acc := st.2.1 + (p.y - mean_old) * (p.y - mean) / p.e
    (mean, std_acc, w_sum)

/-- The whole first pass of `_minmax_y`, from `mean = std = w_sum = 0`. -/
def firstPass (pts : List Point) (xr : Option (ℚ × ℚ)) : ℚ × ℚ × ℚ :=
  pts.foldl (passStep xr) (0, 0, 0)

/-- The weighted mean after the first pass of `_minmax_y`. -/
def passMean (pts : List Point) (xr : Option (ℚ × ℚ)) : ℚ :=
  (firstPass pts xr).1

/-- The *squared* standard deviation after the first pass of `_minmax_y`, with
the safety clamp `std = 0 if (std < 0 or w_sum <= 0) else (std / w_sum)**0.5`.
The source takes the square root and compares `abs(y - mean) > k * std`; we
keep the square and compare `(y - mean)^2 > k^2 * stdSq`, which is equivalent
for `k ≥ 0` since both sides of the source comparison are nonnegative. -/
def passStdSq (pts : List Point) (xr : Option (ℚ × ℚ)) : ℚ :=
  let st := firstPass pts xr
  if st.2.1 < 0 ∨ st.2.2 ≤ 0 then 0 else st.2.1 / st.2.2

/-- The second-pass filter of `_minmax_y`: a point is scanned unless it is an
empty bin (`y == 0 and e == 0`), outside the x-window, or — when
`ignore_outliers_y` is truthy — has `e != 0` and deviates from the weighted
mean by more than `ignore_outliers_y` standard deviations. -/
def includePt (pts : List Point) (xr : Option (ℚ × ℚ)) (k : ℚ) (p : Point) : Bool :=
  if p.y = 0 ∧ p.e = 0 then false
  else if ¬ inWindow xr p then false
  else if k ≠ 0 ∧ p.e ≠ 0 ∧ (p.y - passMean pts xr) ^ 2 > k ^ 2 * passStdSq pts xr then false
  else true

/-- One accumulation step of the second pass of `_minmax_y` on state
`(o_min, o_pos, o_max)`:
`if o_min is None or y < o_min: o_min = y` (likewise `o_max`), and `o_pos`
tracks the least strictly positive value. -/
def scanStep (st : Option ℚ × Option ℚ × Option ℚ) (y : ℚ) :
    Option ℚ × Option ℚ × Option ℚ :=
  let o_min := match st.1 with
    | none => some y
    | some m => if y < m then some y else some m
  let o_pos := if 0 < y then
      (match st.2.1 with
        | none => some y
        | some m => if y < m then some y else some m)
    else st.2.1
  let o_max := match st.2.2 with
    | none => some y
    | some m => if y > m then some y else some m
  (o_min, o_pos, o_max)

/-- `_minmax_y(obj, x_range, ignore_outliers_y)`: returns `(min, min>0, max)`
of the series, scanning every entry and skipping those rejected by the
second-pass filter. -/
def minmax_y (pts : List Point) (xr : Option (ℚ × ℚ)) (k : ℚ) :
    Option ℚ × Option ℚ × Option ℚ :=
  pts.foldl (fun st p => if includePt pts xr k p then scanStep st p.y else st)
    (none, none, none)

/-- `get_minmax_y(objs, ...)`: combines the per-series `_minmax_y` results,
skipping a series when its min or max is `None`. -/
def get_minmax_y (objs : List (List Point)) (xr : Option (ℚ × ℚ)) (k : ℚ) :
    Option ℚ × Option ℚ × Option ℚ :=
  objs.foldl (fun acc pts =>
    let mm := minmax_y pts xr k
    match mm.1, mm.2.2 with
    | some min_obj, some max_obj =>
      let min_val := match acc.1 with
        | none => some min_obj
        | some m => if min_obj < m then some min_obj else some m
      let max_val := match acc.2.2 with
        | none => some max_obj
        | some m => if max_obj > m then some max_obj else some m
      let min_pos := match mm.2.1 with
        | none => acc.2.1
        | some mp => match acc.2.1 with
          | none => some mp
          | some m => if mp < m then some mp else some m
      (min_val, min_pos, max_val)
    | _, _ => acc) (none, none, none)

/-- `get_minmax_y` prints `WARNING! ... min_val is None` / `... max_val is None`
exactly when the respective combined value is `None`; this predicate records
whether a diagnostic is emitted. -/
def get_minmax_y_warns (objs : List (List Point)) (xr : Option (ℚ × ℚ)) (k : ℚ) : Bool :=
  (get_minmax_y objs xr k).1.isNone || (get_minmax_y objs xr k).2.2.isNone

/-! ## Automatic y range (`Plotter._auto_y_range`, plot.py:620) -/

/-- The `y_range` argument of `_auto_y_range`: `None`, the string `'auto'`, or
a pair of optional bounds. -/
inductive YRangeSpec where
  | noRange
  | auto
  | given (lo hi : Option ℚ)
deriving DecidableEq, Repr

/-- The outcome of `_auto_y_range`: its return value and the members it sets. -/
structure AutoYState where
  range : Option (ℚ × ℚ)
  auto_y_bot : Bool
  auto_y_top : Bool
  data_y_min : Option ℚ
  data_y_max : Option ℚ
  data_y_pos : Option ℚ
deriving DecidableEq, Repr

/-- `_auto_y_range` after `y_range` has been parsed to the pair `(lo, hi)`
(the 1D path; `logy` stands for `self.pad.GetLogy()`). -/
def auto_y_range_pair (objs : List (List Point)) (xr : Option (ℚ × ℚ))
    (lo hi y_lo y_hi : Option ℚ) (k : ℚ) (logy : Bool) : AutoYState :=
  match lo, hi with
  | some a, some b => ⟨some (a, b), false, false, none, none, none⟩
  | _, _ =>
    let auto_bot := lo.isNone
    let auto_top := hi.isNone
    let mm := get_minmax_y objs xr k
    if mm.1 = none ∨ mm.2.2 = none ∨ (mm.2.1 = none ∧ logy) then
      ⟨none, false, false, mm.1, mm.2.2, mm.2.1⟩
    else
      let out_min0 := if logy then mm.2.1.getD 0 else mm.1.getD 0
      let out_max0 := mm.2.2.getD 0
      let bot := match lo with
        | some a => (a, auto_bot)
        | none => match y_lo with
          | some m => if out_min0 < m then (m, false) else (out_min0, auto_bot)
          | none => (out_min0, auto_bot)
      let top := match hi with
        | some b => (b, auto_top)
        | none => match y_hi with
          | some m => if out_max0 > m then (m, false) else (out_max0, auto_top)
          | none => (out_max0, auto_top)
      ⟨some (bot.1, top.1), bot.2, top.2, mm.1, mm.2.2, mm.2.1⟩

/-- `Plotter._auto_y_range(y_range, y_min, y_max, ignore_outliers_y)` for 1D
plots: parses the `y_range` spec and delegates to the pair form. -/
def auto_y_range (objs : List (List Point)) (xr : Option (ℚ × ℚ))
    (spec : YRangeSpec) (y_lo y_hi : Option ℚ) (k : ℚ) (logy : Bool) : AutoYState :=
  match spec with
  | .noRange => ⟨none, false, false, none, none, none⟩
  | .auto => auto_y_range_pair objs xr none none y_lo y_hi k logy
  | .given lo hi => auto_y_range_pair objs xr lo hi y_lo y_hi k logy

/-! ## y-range padding (`Plotter._pad_y_range`, plot.py:565)

Modelled in linear (non-log) mode, up to but excluding the final
`_fix_bad_yticks` call: that tick-alignment shim probes the external
`ROOT.THLimitsFinder.Optimize` oracle and is out of scope (spec treats it as a
black box).  Returns the padded `(out_min, out_max)` entering tick correction.
-/

/-- The first-pass padding and constraint rerun of `_pad_y_range`
(plot.py:590-606): pad the data range, then for each side whose padded value
crosses its threshold, move the data bound onto the threshold, zero that
side's padding, and recompute. -/
def pad_y_range_core (data_min data_max pad_bot pad_top : ℚ)
    (y_lo y_hi : Option ℚ) : ℚ × ℚ :=
  let fp := get_padded_range data_min data_max pad_bot pad_top
  let bot_clamped : Bool := match y_lo with | some m => fp.1 < m | none => false
  let top_clamped : Bool := match y_hi with | some m => fp.2 > m | none => false
  if bot_clamped ∨ top_clamped then
    get_padded_range (if bot_clamped then y_lo.getD 0 else data_min)
      (if top_clamped then y_hi.getD 0 else data_max)
      (if bot_clamped then 0 else pad_bot)
      (if top_clamped then 0 else pad_top)
  else fp

/-- `Plotter._pad_y_range(y_min, y_max)` in linear mode, before tick
correction.  `data_range` is `self.y_range`; when `data_min >= 0` the
effective `y_min` threshold is clamped to at least 0 (plot.py:576-578); a
side's padding only applies when that side is auto. -/
def pad_y_range (data_range : ℚ × ℚ) (auto_y_bot auto_y_top : Bool)
    (y_pad_bot y_pad_top : ℚ) (y_lo y_hi : Option ℚ) : ℚ × ℚ :=
  if ¬auto_y_bot ∧ ¬auto_y_top then data_range
  else
    let y_lo := if 0 ≤ data_range.1 then
        (match y_lo with
          | none => some 0
          | some m => if m < 0 then some 0 else some m)
      else y_lo
    pad_y_range_core data_range.1 data_range.2
      (if auto_y_bot then y_pad_bot else 0) (if auto_y_top then y_pad_top else 0)
      y_lo y_hi

/-! ## Text placement entry (`Plotter._auto_text_pos_and_pad`, plot.py:1159)

Only the early-return (skip) structure is modelled: the function returns
without optimizing when the plot is 2D, when there is no text, when a
candidate position is not top-aligned, or when there is a single fixed
position and the top is not auto.  The degenerate-data guard
`if self.data_y_max == self.data_y_min: return` exists only as a *comment*
(plot.py:1177) and is therefore absent here.
-/

/-- The `text_pos` argument: `'auto'`, a single string, or a list of strings. -/
inductive TextPos where
  | auto
  | single (s : String)
  | multi (ls : List String)
deriving DecidableEq, Repr

/-- The candidate list `test_pos` built at plot.py:1180-1185. -/
def test_pos_list (tp : TextPos) : List String :=
  match tp with
  | .auto => ["top", "top reverse", "topleft", "topright"]
  | .single s => [s]
  | .multi ls => ls

/-- Python's `'top' in x` on the character list of `x`. -/
def strContainsTop : List Char → Bool
  | [] => false
  | c :: cs => ("top".toList).isPrefixOf (c :: cs) || strContainsTop cs

/-- `'top' in x` for a candidate position string. -/
def contains_top (s : String) : Bool := strContainsTop s.toList

/-- Whether `_auto_text_pos_and_pad` returns before running the placement
optimization (its early `return`s, in source order).  No condition mentions a
degenerate data range: that guard is commented out. -/
def auto_text_pos_skips (is_2d has_text : Bool) (tp : TextPos) (auto_y_top : Bool) :
    Bool :=
  if is_2d then true
  else if ¬has_text then true
  else
    let test_pos := test_pos_list tp
    if test_pos.any (fun x => !contains_top x) then true
    else if test_pos.length = 1 ∧ ¬auto_y_top then true
    else false

/-! ## Stacking (`_make_stack`, plot.py:1787) and legend list
(`Plotter._get_legend_list`, plot.py:1001; stack path of `Plotter.add`,
plot.py:740-789)

A `TH1` in a stack is modelled by its list of bin contents; `obj.Add(prev)`
is bin-wise addition (ROOT requires identical binning).
-/

/-- `_make_stack(objs)`: clone each histogram and add the previous stacked one
(`if len(new_objs) > 0: obj.Add(new_objs[-1])`). -/
def make_stack (objs : List (List ℚ)) : List (List ℚ) :=
  objs.foldl (fun new_objs obj =>
    let obj := match new_objs.getLast? with
      | some prev => List.zipWith (· + ·) obj prev
      | none => obj
    new_objs ++ [obj]) []

/-- The `legend` argument of `_get_legend_list`: `None`, `'auto'`, a list of
label strings, or a pre-built custom entry list. -/
inductive LegendSpec (α : Type) where
  | noLegend
  | auto
  | labels (ls : List String)
  | custom (entries : List (α × String × String))

/-- The list-of-labels branch of `_get_legend_list` (plot.py:1016-1031):
mismatched lengths raise, entries are `(obj, label, legend_opts(i))`, an
explicit nonempty `legend_order` permutes them (Python raises `IndexError` on
a bad index; orders used here are in range), and entries with an empty label
or empty opt are filtered out.  `legend_opts` models `_arg(legend_opts, i)`;
Python defaults it from the draw options via `_default_legend_opt`, which the
call sites here supply explicitly. -/
def get_legend_list_labels {α : Type} [Inhabited α] (objs : List α)
    (ls : List String) (legend_order : Option (List Nat))
    (legend_opts : Nat → String) : Except String (List (α × String × String)) :=
  if ls.length ≠ objs.length then
    .error "Plotter._get_legend_list() mismatched lengths."
  else
    let out := ((objs.zip ls).enum).map (fun p => (p.2.1, p.2.2, legend_opts p.1))
    let out := match legend_order with
      | some ord => if ord ≠ [] then ord.map (fun i => out.getD i default) else out
      | none => out
    .ok (out.filter (fun x => x.2.1 ≠ "" ∧ x.2.2 ≠ ""))

/-- `Plotter._get_legend_list(objs, opts, legend, legend_order, legend_opts)`:
dispatch on the `legend` argument (`name` models `x.GetName()` used by the
auto branch). -/
def get_legend_list {α : Type} [Inhabited α] (name : α → String) (objs : List α)
    (legend : LegendSpec α) (legend_order : Option (List Nat))
    (legend_opts : Nat → String) : Except String (List (α × String × String)) :=
  match legend with
  | .noLegend => .ok []
  | .custom entries => .ok entries
  | .auto =>
    if objs.length < 2 then .ok []
    else get_legend_list_labels objs (objs.map name) legend_order legend_opts
  | .labels ls => get_legend_list_labels objs ls legend_order legend_opts

/-- Output of the stack path of `Plotter.add`: the objects in draw order and
the accumulated legend entries. -/
structure AddStackResult (α : Type) where
  draw_objs : List α
  legend_items : List (α × String × String)

/-- The stack path of `Plotter.add` (`stack=True`): build the cumulative
stack, default `legend_opts` to `'F'` (plot.py:767-768), build the legend
list, then reverse the drawn objects, and — when `reverse_legend_for_stack`
and no `legend_order` was passed — reverse the legend entries
(plot.py:771-776). -/
def add_stack (objs : List (List ℚ)) (labels : List String)
    (legend_order : Option (List Nat)) (reverse_legend_for_stack : Bool) :
    Except String (AddStackResult (List ℚ)) := do
  let stacked := make_stack objs
  let legend_items ← get_legend_list (fun _ => "") stacked (.labels labels)
    legend_order (fun _ => "F")
  let legend_items := if reverse_legend_for_stack ∧ legend_order = none then
      legend_items.reverse
    else legend_items
  .ok ⟨stacked.reverse, legend_items⟩

end RPlot

/-! ## Theorems -/

namespace RPlot

/-- Adding to an empty `Occlusion` appends the single new range. -/
lemma Occlusion.add_empty (a b c d : ℚ) :
    Occlusion.empty.add a b c d = ⟨[⟨a, b, c, d⟩]⟩ := rfl

/-- Adding a range strictly to the right of the single existing entry appends it. -/
lemma Occlusion.add_singleton_right (e : Occlusion.Range) (a b c d : ℚ)
    (hee : e.x_min < e.x_max) (h : e.x_max ≤ a) (hab : a < b) :
    (Occlusion.mk [e]).add a b c d = ⟨[e, ⟨a, b, c, d⟩]⟩ := by
  have h1 : e.x_min < a := lt_of_lt_of_le hee h
  have h2 : e.x_min < b := h1.trans hab
  have h3 : ¬ e.x_max > a := not_lt.mpr h
  simp [Occlusion.add, Occlusion.find, Occlusion.bisectLeft, List.takeWhile, h1, h2, h3]

/-- Adding a range entirely to the left of the single existing entry inserts it
in front. -/
lemma Occlusion.add_singleton_left (e : Occlusion.Range) (a b c d : ℚ)
    (h : b ≤ e.x_min) (hab : a < b) :
    (Occlusion.mk [e]).add a b c d = ⟨[⟨a, b, c, d⟩, e]⟩ := by
  have h1 : ¬ e.x_min < a := not_lt.mpr (le_of_lt (lt_of_lt_of_le hab h))
  have h2 : ¬ e.x_min < b := not_lt.mpr h
  simp [Occlusion.add, Occlusion.find, Occlusion.bisectLeft, List.takeWhile, h1, h2]

/-- Adding a range whose x-interval covers the single existing entry and whose
y-extent is not contained in it replaces the entry by one spanning the
*existing* entry's x-range with the union of the y-extents. -/
lemma Occlusion.add_singleton_cover (e : Occlusion.Range) (a b c d : ℚ)
    (hee : e.x_min < e.x_max) (ha : a ≤ e.x_min) (hb : e.x_max ≤ b)
    (hy : ¬(c ≥ e.y_min ∧ d ≤ e.y_max)) :
    (Occlusion.mk [e]).add a b c d
      = ⟨[⟨e.x_min, e.x_max, min e.y_min c, max e.y_max d⟩]⟩ := by
  have h1 : ¬ e.x_min < a := not_lt.mpr ha
  have h2 : e.x_min < b := lt_of_lt_of_le hee hb
  have h3 : ¬ a ≥ e.x_max := not_le.mpr (lt_of_le_of_lt ha hee)
  have h4 : ¬ b ≤ e.x_min := not_le.mpr h2
  have h5 : ¬ a > e.x_min := not_lt.mpr ha
  simp [Occlusion.add, Occlusion.find, Occlusion.bisectLeft, Occlusion.Range.split,
    List.takeWhile, h1, h2, h3, h4, h5, hy, ha, hb]

/-- C1 (amended): starting from an empty `Occlusion`, adding two rectangles with
disjoint x-intervals leaves exactly two entries; starting from an `Occlusion`
holding one entry, adding a rectangle whose x-interval fully contains the
entry's x-interval (y-extent not contained in the entry's) leaves exactly one
merged entry whose x-range is the *existing* entry's x-range (the incoming
rectangle's overhang is dropped, per `Range.split`'s docstring) and whose
y-extent is the union `[min y_min, max y_max]` of the two y-extents. -/
theorem Occlusion.add_disjoint_and_cover (r1 r2 e r : Occlusion.Range)
    (h1 : r1.x_min < r1.x_max) (h2 : r2.x_min < r2.x_max)
    (hdisj : r1.x_max ≤ r2.x_min ∨ r2.x_max ≤ r1.x_min)
    (he : e.x_min < e.x_max)
    (hca : r.x_min ≤ e.x_min) (hcb : e.x_max ≤ r.x_max)
    (hy : ¬(r.y_min ≥ e.y_min ∧ r.y_max ≤ e.y_max)) :
    ((Occlusion.empty.add r1.x_min r1.x_max r1.y_min r1.y_max).add
        r2.x_min r2.x_max r2.y_min r2.y_max).ranges.length = 2 ∧
      (Occlusion.mk [e]).add r.x_min r.x_max r.y_min r.y_max
        = ⟨[⟨e.x_min, e.x_max, min e.y_min r.y_min, max e.y_max r.y_max⟩]⟩ := by
  constructor
  · have hfirst : Occlusion.empty.add r1.x_min r1.x_max r1.y_min r1.y_max
        = ⟨[r1]⟩ := rfl
    rw [hfirst]
    rcases hdisj with hd | hd
    · rw [Occlusion.add_singleton_right r1 _ _ _ _ h1 hd h2]; rfl
    · rw [Occlusion.add_singleton_left r1 _ _ _ _ hd h2]; rfl
  · exact Occlusion.add_singleton_cover e _ _ _ _ he hca hcb hy

/-- Witness for C1 at `r1 = (0,1)→(0,1)`, `r2 = (2,3)→(0,1)`, `e = (1,2)→(0,1)`,
`r = (0,3)→(0,2)`. -/
theorem Occlusion.add_disjoint_and_cover_witness :
    ((0 : ℚ) < 1 ∧ (2 : ℚ) < 3 ∧ ((1 : ℚ) ≤ 2 ∨ (3 : ℚ) ≤ 0) ∧ (1 : ℚ) < 2 ∧
        (0 : ℚ) ≤ 1 ∧ (2 : ℚ) ≤ 3 ∧ ¬((0 : ℚ) ≥ 0 ∧ (2 : ℚ) ≤ 1)) ∧
      (((Occlusion.empty.add 0 1 0 1).add 2 3 0 1).ranges.length = 2 ∧
        (Occlusion.mk [⟨1, 2, 0, 1⟩]).add 0 3 0 2
          = ⟨[⟨1, 2, min 0 0, max 1 2⟩]⟩) :=
  ⟨by norm_num,
    Occlusion.add_disjoint_and_cover ⟨0, 1, 0, 1⟩ ⟨2, 3, 0, 1⟩ ⟨1, 2, 0, 1⟩ ⟨0, 3, 0, 2⟩
      (by norm_num) (by norm_num) (Or.inl (by norm_num)) (by norm_num)
      (by norm_num) (by norm_num) (by norm_num)⟩

/-- C1 counterexample: adding the rectangle `(0,3)→(0,2)` to an `Occlusion`
holding the single entry `(1,2)→(0,1)` (which it fully contains in x, with
y-extent not contained) leaves one entry `(1,2)→(0,2)` whose x-range `(1,2)` is
*not* the union `(0,3)` of the two x-ranges, contrary to the claim. -/
theorem Occlusion.add_cover_not_union :
    ((Occlusion.empty.add 1 2 0 1).add 0 3 0 2).ranges = [⟨1, 2, 0, 2⟩] ∧
      ((1 : ℚ), (2 : ℚ)) ≠ ((0 : ℚ), (3 : ℚ)) := by
  constructor
  · decide
  · simp

/-- Folding with a step guarded by a predicate equals folding over the
filtered list. -/
lemma foldl_if_filter {α β : Type} (p : α → Bool) (f : β → α → β) (l : List α) (i : β) :
    l.foldl (fun st a => if p a then f st a else st) i = (l.filter p).foldl f i := by
  induction l generalizing i with
  | nil => rfl
  | cons a l ih => by_cases h : p a <;> simp [List.filter_cons, h, ih]

/-- Folding with a step that fixes every list element is the identity. -/
lemma foldl_fix {α β : Type} (f : β → α → β) (l : List α) (i : β)
    (h : ∀ a ∈ l, ∀ b, f b a = b) : l.foldl f i = i := by
  induction l generalizing i with
  | nil => rfl
  | cons a l ih =>
    rw [List.foldl_cons, h a (List.mem_cons_self a l), ih]
    exact fun b hb => h b (List.mem_cons_of_mem a hb)

/-- `_minmax_y` scans exactly the points accepted by the second-pass filter. -/
lemma minmax_y_eq_filter (pts : List Point) (xr : Option (ℚ × ℚ)) (k : ℚ) :
    minmax_y pts xr k
      = ((pts.filter (includePt pts xr k)).map Point.y).foldl scanStep
          (none, none, none) := by
  rw [minmax_y, foldl_if_filter, List.foldl_map]

/-- An empty bin (`y = 0`, `e = 0`) is rejected by the second-pass filter. -/
lemma includePt_empty_bin (pts : List Point) (xr : Option (ℚ × ℚ)) (k : ℚ)
    (p : Point) (hy : p.y = 0) (he : p.e = 0) : includePt pts xr k p = false := by
  simp [includePt, hy, he]

/-- `_minmax_y` of a series with no nonzero content returns `(None, None, None)`. -/
lemma minmax_y_all_zero (pts : List Point) (xr : Option (ℚ × ℚ)) (k : ℚ)
    (h : ∀ p ∈ pts, p.y = 0 ∧ p.e = 0) : minmax_y pts xr k = (none, none, none) := by
  rw [minmax_y]
  apply foldl_fix
  intro a ha b
  rw [includePt_empty_bin pts xr k a (h a ha).1 (h a ha).2]
  simp

/-- `get_minmax_y` of series with no nonzero content returns `(None, None, None)`. -/
lemma get_minmax_y_all_zero (objs : List (List Point)) (xr : Option (ℚ × ℚ)) (k : ℚ)
    (h : ∀ pts ∈ objs, ∀ p ∈ pts, p.y = 0 ∧ p.e = 0) :
    get_minmax_y objs xr k = (none, none, none) := by
  rw [get_minmax_y]
  apply foldl_fix
  intro pts hpts b
  simp [minmax_y_all_zero pts xr k (h pts hpts)]

/-- C4 (amended): with `ignore_outliers_y = k > 0`, any point with *nonzero
error* whose y-value deviates from the weighted mean by more than `k` weighted
standard deviations is rejected by the second-pass filter, hence absent from
the list whose min/max `_minmax_y` computes; with `k = 0` every point with
nonzero y-value passes the filter. -/
theorem minmax_outlier_rejection (pts : List Point) (p : Point) (k : ℚ)
    (hk : 0 < k) (he : p.e ≠ 0)
    (hdev : (p.y - passMean pts none) ^ 2 > k ^ 2 * passStdSq pts none) :
    includePt pts none k p = false ∧
      p ∉ pts.filter (includePt pts none k) ∧
      minmax_y pts none k
        = ((pts.filter (includePt pts none k)).map Point.y).foldl scanStep
            (none, none, none) ∧
      ∀ q : Point, q.y ≠ 0 → includePt pts none 0 q = true := by
  have hinc : includePt pts none k p = false := by
    simp [includePt, inWindow, he, hk.ne', hdev]
  refine ⟨hinc, ?_, minmax_y_eq_filter pts none k, ?_⟩
  · simp [List.mem_filter, hinc]
  · intro q hq
    simp [includePt, inWindow, hq]

/-- Witness for C4 at `pts = [(1,0,1), (2,0,1), (3,10,1)]`, `p = (3,10,1)`,
`k = 1`: the weighted mean is `10/3`, the squared deviation `400/9` exceeds
`stdSq = 200/9`, and the deviant point is excluded. -/
theorem minmax_outlier_rejection_witness :
    ((0 : ℚ) < 1 ∧ (⟨3, 10, 1⟩ : Point).e ≠ 0 ∧
        ((⟨3, 10, 1⟩ : Point).y - passMean [⟨1, 0, 1⟩, ⟨2, 0, 1⟩, ⟨3, 10, 1⟩] none) ^ 2
          > (1 : ℚ) ^ 2 * passStdSq [⟨1, 0, 1⟩, ⟨2, 0, 1⟩, ⟨3, 10, 1⟩] none) ∧
      (includePt [⟨1, 0, 1⟩, ⟨2, 0, 1⟩, ⟨3, 10, 1⟩] none 1 ⟨3, 10, 1⟩ = false ∧
        (⟨3, 10, 1⟩ : Point)
            ∉ List.filter (includePt [⟨1, 0, 1⟩, ⟨2, 0, 1⟩, ⟨3, 10, 1⟩] none 1)
              [⟨1, 0, 1⟩, ⟨2, 0, 1⟩, ⟨3, 10, 1⟩] ∧
        minmax_y [⟨1, 0, 1⟩, ⟨2, 0, 1⟩, ⟨3, 10, 1⟩] none 1
          = ((List.filter (includePt [⟨1, 0, 1⟩, ⟨2, 0, 1⟩, ⟨3, 10, 1⟩] none 1)
                [⟨1, 0, 1⟩, ⟨2, 0, 1⟩, ⟨3, 10, 1⟩]).map Point.y).foldl scanStep
              (none, none, none) ∧
        ∀ q : Point, q.y ≠ 0
          → includePt [⟨1, 0, 1⟩, ⟨2, 0, 1⟩, ⟨3, 10, 1⟩] none 0 q = true) :=
  ⟨⟨by norm_num, by norm_num,
      by norm_num [passMean, passStdSq, firstPass, passStep, inWindow]⟩,
    minmax_outlier_rejection [⟨1, 0, 1⟩, ⟨2, 0, 1⟩, ⟨3, 10, 1⟩] ⟨3, 10, 1⟩ 1
      (by norm_num) (by norm_num)
      (by norm_num [passMean, passStdSq, firstPass, passStep, inWindow])⟩

/-- Input refuting C4 as stated: the third point has zero error, deviates
arbitrarily far, yet is kept. -/
def zeroErrPts : List Point := [⟨1, 0, 1⟩, ⟨2, 0, 1⟩, ⟨3, 100, 0⟩]

/-- C4 counterexample: in `zeroErrPts` (weighted mean `0`, stdSq `0`) the point
`(3, 100, 0)` deviates from the mean by more than `1` standard deviation, yet
with `ignore_outliers_y = 1` it is *included*: the computed max is `100`. -/
theorem minmax_zero_error_kept :
    passMean zeroErrPts none = 0 ∧ passStdSq zeroErrPts none = 0 ∧
      ((100 : ℚ) - passMean zeroErrPts none) ^ 2 > 1 ^ 2 * passStdSq zeroErrPts none ∧
      minmax_y zeroErrPts none 1 = (some 0, some 100, some 100) := by
  norm_num [zeroErrPts, passMean, passStdSq, firstPass, passStep, inWindow,
    minmax_y, includePt, scanStep]

/-- C2 (amended): for the two series with y-ranges `[0,10]` and `[5,20]`,
`ignore_outliers_y = 0`, pads `1/20`, linear axis, no explicit bounds: the raw
range is `(0, 20)`; the first-pass padding gives `(-10/9, 190/9)`
(≈ `(-1.11, 21.11)`); the non-negative clamp then zeroes the bottom padding so
the padded range entering tick correction is `(0, 400/19)` (≈ `(0, 21.05)`). -/
theorem two_series_padded_range :
    get_minmax_y [[⟨1, 0, 1⟩, ⟨2, 10, 1⟩], [⟨1, 5, 1⟩, ⟨2, 20, 1⟩]] none 0
        = (some 0, some 5, some 20) ∧
      (auto_y_range [[⟨1, 0, 1⟩, ⟨2, 10, 1⟩], [⟨1, 5, 1⟩, ⟨2, 20, 1⟩]] none .auto
          none none 0 false).range = some (0, 20) ∧
      get_padded_range 0 20 (1/20) (1/20) = (-10/9, 190/9) ∧
      pad_y_range (0, 20) true true (1/20) (1/20) none none = (0, 400/19) := by
  refine ⟨?_, ?_, ?_, ?_⟩
  · norm_num [get_minmax_y, minmax_y, includePt, inWindow, scanStep]
  · norm_num [auto_y_range, auto_y_range_pair, get_minmax_y, minmax_y, includePt,
      inWindow, scanStep]
    simp
  · norm_num [get_padded_range]
  · norm_num [pad_y_range, pad_y_range_core, get_padded_range]

/-- C2 counterexample: the padded lower bound at the claimed scenario is `0`
(clamped), not approximately `-1.0`, and the upper bound is `400/19`, not
`21.0`. -/
theorem two_series_padded_range_not_claimed :
    pad_y_range (0, 20) true true (1/20) (1/20) none none = (0, 400/19) ∧
      (0 : ℚ) ≠ -1 ∧ (400/19 : ℚ) ≠ 21 := by
  refine ⟨?_, by norm_num, by norm_num⟩
  norm_num [pad_y_range, pad_y_range_core, get_padded_range]

/-- Series with no nonzero content: every bin has `y = 0` and `e = 0`. -/
def allZeroHist : List Point := [⟨1, 0, 0⟩, ⟨2, 0, 0⟩]

/-- C8 (amended): when no series has any nonzero content, `get_minmax_y` emits
its diagnostic (both min and max come back `None`) and `_auto_y_range` falls
back to *no* range — it disables automatic ranging and returns `None` — rather
than raising. -/
theorem auto_y_range_empty_fallback (objs : List (List Point)) (xr : Option (ℚ × ℚ))
    (y_lo y_hi : Option ℚ) (k : ℚ) (logy : Bool)
    (h : ∀ pts ∈ objs, ∀ p ∈ pts, p.y = 0 ∧ p.e = 0) :
    get_minmax_y_warns objs xr k = true ∧
      auto_y_range objs xr .auto y_lo y_hi k logy
        = ⟨none, false, false, none, none, none⟩ := by
  have hg := get_minmax_y_all_zero objs xr k h
  refine ⟨?_, ?_⟩
  · simp [get_minmax_y_warns, hg]
  · simp [auto_y_range, auto_y_range_pair, hg]

/-- Witness for C8 at a single all-zero two-bin histogram. -/
theorem auto_y_range_empty_fallback_witness :
    (∀ pts ∈ [allZeroHist], ∀ p ∈ pts, p.y = 0 ∧ p.e = 0) ∧
      (get_minmax_y_warns [allZeroHist] none 0 = true ∧
        auto_y_range [allZeroHist] none .auto none none 0 false
          = ⟨none, false, false, none, none, none⟩) :=
  ⟨by decide, auto_y_range_empty_fallback [allZeroHist] none none none 0 false (by decide)⟩

/-- C8 counterexample: for the all-zero input the computed range is `None`,
not the degenerate pair `(0, 0)` the claim states. -/
theorem auto_y_range_empty_not_zero_pair :
    (auto_y_range [allZeroHist] none .auto none none 0 false).range = none ∧
      (auto_y_range [allZeroHist] none .auto none none 0 false).range ≠ some (0, 0) := by
  constructor <;>
    simp [auto_y_range, auto_y_range_pair, allZeroHist, get_minmax_y, minmax_y,
      includePt, inWindow]

/-- When only the top threshold clamps, the recomputed lower bound stays at or
above the first-pass lower bound, hence nonnegative. -/
lemma padded_top_rerun_nonneg (a b pb' pt' m' M : ℚ)
    (hpb0 : 0 ≤ pb') (hpt0 : 0 ≤ pt') (hh : 0 < 1 - pb' - pt') (hm : 0 ≤ m')
    (hnb : m' ≤ (get_padded_range a b pb' pt').1)
    (htc : M < (get_padded_range a b pb' pt').2) :
    0 ≤ (get_padded_range a M pb' 0).1 := by
  have hg : (0 : ℚ) < 1 - pb' := by linarith
  simp only [get_padded_range] at hnb htc ⊢
  have h1 : pb' * (b - a) ≤ a * (1 - pb' - pt') := by
    have h0 : pb' * (b - a) / (1 - pb' - pt') ≤ a := by linarith [le_trans hm hnb]
    calc pb' * (b - a)
        = pb' * (b - a) / (1 - pb' - pt') * (1 - pb' - pt') := by field_simp
      _ ≤ a * (1 - pb' - pt') := mul_le_mul_of_nonneg_right h0 hh.le
  have h2 : (M - b) * (1 - pb' - pt') < pt' * (b - a) := by
    have h0 : M - b < pt' * (b - a) / (1 - pb' - pt') := by linarith
    exact (lt_div_iff₀ hh).mp h0
  rw [sub_nonneg, div_le_iff₀ (by linarith : (0 : ℚ) < 1 - pb' - 0)]
  nlinarith [mul_le_mul_of_nonneg_left h2.le hpb0, mul_le_mul_of_nonneg_right h1 hg.le,
    hh, hg]

/-- The constraint-rerun core of `_pad_y_range` keeps the lower bound at or
above the (nonnegative) bottom threshold it is given. -/
lemma pad_y_range_core_fst_nonneg (a b pb' pt' m' : ℚ) (yhi : Option ℚ)
    (hpb0 : 0 ≤ pb') (hpt0 : 0 ≤ pt')
    (hs : pb' + pt' < 1) (hm : 0 ≤ m') :
    0 ≤ (pad_y_range_core a b pb' pt' (some m') yhi).1 := by
  have hh : (0 : ℚ) < 1 - pb' - pt' := by linarith
  rcases yhi with _ | M
  · by_cases hbc : (get_padded_range a b pb' pt').1 < m'
    · simp only [pad_y_range_core, hbc]
      simp [get_padded_range, hm]
    · simp only [pad_y_range_core, hbc]
      simpa using le_trans hm (not_lt.mp hbc)
  · by_cases hbc : (get_padded_range a b pb' pt').1 < m' <;>
      by_cases htc : (get_padded_range a b pb' pt').2 > M
    · simp only [pad_y_range_core, hbc, htc]
      simp [get_padded_range, hm]
    · simp only [pad_y_range_core, hbc, htc]
      simp [get_padded_range, hm]
    · simp only [pad_y_range_core, hbc, htc]
      simpa using
        padded_top_rerun_nonneg a b pb' pt' m' M hpb0 hpt0 hh hm (not_lt.mp hbc) htc
    · simp only [pad_y_range_core, hbc, htc]
      simpa using le_trans hm (not_lt.mp hbc)

/-- C10: with a non-negative data minimum and a linear (non-log) y axis, the
padded lower bound produced by `_pad_y_range` (before the external
tick-alignment shim) is never negative: the effective bottom threshold is
clamped to at least 0, and a padded minimum falling below it zeroes the bottom
padding and recomputes from the clamp. -/
theorem pad_y_range_fst_nonneg (dmin dmax pb pt : ℚ) (abot atop : Bool)
    (ylo yhi : Option ℚ)
    (hd : 0 ≤ dmin) (hpb : 0 ≤ pb) (hpt : 0 ≤ pt) (hs : pb + pt < 1) :
    0 ≤ (pad_y_range (dmin, dmax) abot atop pb pt ylo yhi).1 := by
  unfold pad_y_range
  split_ifs with h0
  · exact hd
  all_goals (
    dsimp only
    try rw [if_pos hd]
    rcases ylo with _ | m
    · exact pad_y_range_core_fst_nonneg _ _ _ _ 0 yhi (by linarith) (by linarith)
        (by linarith) le_rfl
    · dsimp only
      split_ifs with hm
      · exact pad_y_range_core_fst_nonneg _ _ _ _ 0 yhi (by linarith) (by linarith)
          (by linarith) le_rfl
      · exact pad_y_range_core_fst_nonneg _ _ _ _ m yhi (by linarith) (by linarith)
          (by linarith) (not_lt.mp hm))

/-- Witness for C10 at data range `(1/2, 20)`, both sides auto with pads
`1/20`, no user thresholds: the padded minimum would be negative without the
clamp, and the result is nonnegative. -/
theorem pad_y_range_fst_nonneg_witness :
    ((0 : ℚ) ≤ 1/2 ∧ (0 : ℚ) ≤ 1/20 ∧ (0 : ℚ) ≤ 1/20 ∧ (1/20 : ℚ) + 1/20 < 1) ∧
      0 ≤ (pad_y_range (1/2, 20) true true (1/20) (1/20) none none).1 :=
  ⟨by norm_num,
    pad_y_range_fst_nonneg (1/2) 20 (1/20) (1/20) true true none none
      (by norm_num) (by norm_num) (by norm_num) (by norm_num)⟩

/-- C3 (the code at the failing input): for a series whose y-values are all
equal the computed data range is degenerate (`(5,5)`), yet with text present,
`text_pos='auto'` and an auto top, `_auto_text_pos_and_pad` does *not* skip
the optimization — the degenerate-range guard survives only as a comment
(plot.py:1177) — and the axes-coordinate conversion it then performs on the
occlusion rectangles divides by the zero frame extent. -/
theorem degenerate_range_not_skipped :
    (auto_y_range [[⟨1, 5, 1⟩, ⟨2, 5, 1⟩]] none .auto none none 0 false).range
        = some (5, 5) ∧
      auto_text_pos_skips false true .auto true = false ∧
      user_to_axes_y 5 5 5 = .error "ZeroDivisionError" := by
  refine ⟨?_, by decide, by norm_num [user_to_axes_y]⟩
  norm_num [auto_y_range, auto_y_range_pair, get_minmax_y, minmax_y, includePt,
    inWindow, scanStep]
  simp

/-- C7: with `stack=True`, `_make_stack` turns series `[a, b, c]` into the
cumulative sums `[a, a+b, a+b+c]` (bin-wise); `Plotter.add` then draws exactly
these values (in reversed z-order so the smallest paints last) and, with no
`legend_order` supplied, the default legend order is `[c, b, a]`. -/
theorem stack_cumulative_and_legend (a b c : List ℚ) (la lb lc : String)
    (ha : la ≠ "") (hb : lb ≠ "") (hc : lc ≠ "") :
    make_stack [a, b, c]
        = [a, List.zipWith (· + ·) a b,
            List.zipWith (· + ·) (List.zipWith (· + ·) a b) c] ∧
      (add_stack [a, b, c] [la, lb, lc] none true).map
          (fun r => r.legend_items.map (fun e => e.2.1)) = .ok [lc, lb, la] ∧
      (add_stack [a, b, c] [la, lb, lc] none true).map (fun r => r.draw_objs)
        = .ok [List.zipWith (· + ·) (List.zipWith (· + ·) a b) c,
            List.zipWith (· + ·) a b, a] := by
  have hcomm : ∀ u v : List ℚ, List.zipWith (· + ·) u v = List.zipWith (· + ·) v u :=
    fun u v => List.zipWith_comm_of_comm _ add_comm u v
  have hstack : make_stack [a, b, c]
      = [a, List.zipWith (· + ·) a b,
          List.zipWith (· + ·) (List.zipWith (· + ·) a b) c] := by
    show [a, List.zipWith (· + ·) b a, List.zipWith (· + ·) c (List.zipWith (· + ·) b a)]
        = _
    rw [hcomm b a, hcomm c (List.zipWith (· + ·) a b)]
  refine ⟨hstack, ?_, ?_⟩ <;>
    simp [add_stack, get_legend_list, get_legend_list_labels, hstack, ha, hb, hc,
      List.enum, List.enumFrom, List.filter, Except.map, Bind.bind, Except.bind]

/-- Witness for C7 at `a = [1]`, `b = [2]`, `c = [3]` with labels
`"a", "b", "c"`. -/
theorem stack_cumulative_and_legend_witness :
    (("a" : String) ≠ "" ∧ ("b" : String) ≠ "" ∧ ("c" : String) ≠ "") ∧
      (make_stack [[1], [2], [3]]
          = [[1], List.zipWith (· + ·) [1] [2],
              List.zipWith (· + ·) (List.zipWith (· + ·) [1] [2]) [3]] ∧
        (add_stack [[1], [2], [3]] ["a", "b", "c"] none true).map
            (fun r => r.legend_items.map (fun e => e.2.1)) = .ok ["c", "b", "a"] ∧
        (add_stack [[1], [2], [3]] ["a", "b", "c"] none true).map (fun r => r.draw_objs)
          = .ok [List.zipWith (· + ·) (List.zipWith (· + ·) [1] [2]) [3],
              List.zipWith (· + ·) [1] [2], [1]]) :=
  ⟨by decide,
    stack_cumulative_and_legend [1] [2] [3] "a" "b" "c" (by decide) (by decide)
      (by decide)⟩

/-- C9: building the legend from three objects with labels `["A", "", "C"]`
and legend opts `["L", "L", ""]` yields exactly one entry, the one labeled
`"A"`: entries with an empty label or an empty opt token are filtered out. -/
theorem legend_filters_empty_entries :
    get_legend_list (fun _ : Nat => "") [0, 1, 2] (.labels ["A", "", "C"]) none
        (fun i => ["L", "L", ""].getD i "")
      = .ok [(0, "A", "L")] := by
  rfl

/-- C5: for every data range `[lo, hi]` and padding fraction `p` on both
sides with `2p < 1`, the padded range `[lo', hi']` returned by
`_get_padded_range(lo, hi, p, p)` satisfies `(hi - lo) = (hi' - lo') * (1 - 2p)`
in exact rational arithmetic. -/
theorem padded_range_height_relation (lo hi p : ℚ) (hp : 2 * p < 1) :
    hi - lo = ((get_padded_range lo hi p p).2 - (get_padded_range lo hi p p).1) * (1 - 2 * p) := by
  have h : (1 : ℚ) - p - p ≠ 0 := by linarith
  simp only [get_padded_range]
  field_simp
  ring

/-- Witness for C5 at `lo = 0`, `hi = 20`, `p = 1/20`. -/
theorem padded_range_height_relation_witness :
    (2 * (1/20 : ℚ) < 1) ∧
      (20 - 0 : ℚ) =
        ((get_padded_range 0 20 (1/20) (1/20)).2 - (get_padded_range 0 20 (1/20) (1/20)).1)
          * (1 - 2 * (1/20)) :=
  ⟨by norm_num, padded_range_height_relation 0 20 (1/20) (by norm_num)⟩

/-- C6: for margins with `margin_low + margin_high < 1`, the axes↔pad maps are
exact algebraic inverses in both coordinates:
`pad_to_axes_x (axes_to_pad_x v) = v` and `pad_to_axes_y (axes_to_pad_y v) = v`. -/
theorem axes_pad_roundtrip (ml mh v : ℚ) (h : ml + mh < 1) :
    pad_to_axes_x ml mh (axes_to_pad_x ml mh v) = v ∧
      pad_to_axes_y ml mh (axes_to_pad_y ml mh v) = v := by
  have hx : (1 : ℚ) - ml - mh ≠ 0 := by linarith
  have hy : (1 : ℚ) - mh - ml ≠ 0 := by linarith
  constructor
  · simp only [pad_to_axes_x, axes_to_pad_x]
    field_simp
  · simp only [pad_to_axes_y, axes_to_pad_y]
    field_simp

/-- Witness for C6 at margins `(1/10, 1/20)` and `v = 3/7`. -/
theorem axes_pad_roundtrip_witness :
    ((1/10 : ℚ) + 1/20 < 1) ∧
      (pad_to_axes_x (1/10) (1/20) (axes_to_pad_x (1/10) (1/20) (3/7)) = 3/7 ∧
        pad_to_axes_y (1/10) (1/20) (axes_to_pad_y (1/10) (1/20) (3/7)) = 3/7) :=
  ⟨by norm_num, axes_pad_roundtrip (1/10) (1/20) (3/7) (by norm_num)⟩

end RPlot
